import Mathlib

/-!
Verification of the Professor Profiler agent-orchestration runtime.

Shallow embedding of the python sources:
  * google/adk/sessions/in_memory_session_service.py  (sessions, messages)
  * profiler_agent/observability.py                   (Tracer)
  * google/adk/agents/agent.py                        (Agent.run and helpers)
  * google/adk/tools/function_tool.py                 (FunctionTool)
  * google/adk/runners/runner.py                      (Runner.run_async)

Modelling conventions:
  * wall-clock timestamps (datetime.now / time.time) are threaded as explicit
    Nat tick parameters; the fields created_at / updated_at, which no claim
    mentions, are omitted from the Session record;
  * python dictionaries keyed by strings are modelled as association lists,
    and the three-level session dictionary as a function from the
    (app_name, user_id, session_id) triple to an optional Session
    (collections.defaultdict never raises KeyError, so a total function with
    an Option codomain is an exact model of the read paths used);
  * async functions are modelled as pure functions: the event loop only
    interleaves at await points and every claim concerns a single
    orchestration pass, so sequential evaluation is faithful;
  * a raised python exception is an Except.error carrying str(e).
-/

/-! ## Sessions: in_memory_session_service.py -/

/-- A message record as built by add_message (timestamp omitted). -/
structure Message where
  role : String
  content : String
  metadata : List (String × String)
deriving Repr, DecidableEq

/-- A session record as built by create_session (timestamps omitted). -/
structure Session where
  session_id : String
  user_id : String
  app_name : String
  messages : List Message
  context : List (String × String)
  metadata : List (String × String)
deriving Repr, DecidableEq

/-- Key of the nested dictionary self sessions: (app_name, user_id, session_id). -/
abbrev SessionKey := String × String × String

/-- The nested defaultdict of sessions, as a total lookup function. -/
abbrev SessionStore := SessionKey → Option Session

def emptyStore : SessionStore := fun _ => none

def storeInsert (st : SessionStore) (k : SessionKey) (s : Session) : SessionStore :=
  fun k2 => if k2 = k then some s else st k2

/-- InMemorySessionService.create_session: builds a fresh record with empty
message list and context/metadata both equal to the metadata argument
(python: metadata or \x7b\x7d), stores it, and returns it. -/
def create_session (st : SessionStore) (app user sid : String)
    (metadata : List (String × String)) : Session × SessionStore :=
  let s : Session := ⟨sid, user, app, [], metadata, metadata⟩
  (s, storeInsert st (app, user, sid) s)

/-- InMemorySessionService.get_session: get-or-create. The create path passes
metadata=None, i.e. the empty dictionary. -/
def get_session (st : SessionStore) (app user sid : String) : Session × SessionStore :=
  match st (app, user, sid) with
  | none => create_session st app user sid []
  | some s => (s, st)

/-- InMemorySessionService.add_message: get-or-create the session, append the
message to its history, and return the message. -/
def add_message (st : SessionStore) (app user sid role content : String)
    (metadata : List (String × String)) : Message × SessionStore :=
  let p := get_session st app user sid
  let m : Message := ⟨role, content, metadata⟩
  let s2 := { p.1 with messages := p.1.messages ++ [m] }
  (m, storeInsert p.2 (app, user, sid) s2)

/-- Python list slicing l[s:] for an arbitrary (possibly negative) start. -/
def pySliceFrom (l : List Message) (s : Int) : List Message :=
  if s < 0 then l.drop ((l.length + s).toNat) else l.drop s.toNat

/-- InMemorySessionService.get_messages: get-or-create the session; with a
truthy limit (not None and nonzero) return messages[-limit:], otherwise the
whole history. -/
def get_messages (st : SessionStore) (app user sid : String) (limit : Option Int) :
    List Message × SessionStore :=
  let p := get_session st app user sid
  match limit with
  | some k => if k ≠ 0 then (pySliceFrom p.1.messages (-k), p.2) else (p.1.messages, p.2)
  | none => (p.1.messages, p.2)

/-- Iterate add_message over a list of (role, content) pairs; harness used to
state claims about N successive add_message calls. -/
def add_messages (st : SessionStore) (app user sid : String)
    (ms : List (String × String)) : SessionStore :=
  ms.foldl (fun s rc => (add_message s app user sid rc.1 rc.2 []).2) st

/-! ## Tracer: observability.py -/

/-- One span appended by Tracer.add_span (timestamp as a tick parameter). -/
structure Span where
  name : String
  duration_ms : Nat
  timestamp : Nat
  metadata : List (String × String)
deriving Repr, DecidableEq

/-- One trace record. end_time and total_duration_ms are absent until
end_trace sets them (python adds the keys in place). -/
structure Trace where
  trace_id : String
  operation : String
  start_time : Nat
  metadata : List (String × String)
  spans : List Span
  end_time : Option Nat
  total_duration_ms : Option Int
deriving Repr, DecidableEq

/-- The self traces dictionary of Tracer. -/
abbrev TraceStore := String → Option Trace

def emptyTraces : TraceStore := fun _ => none

/-- Tracer.start_trace: stores a fresh open record under the given id.
The uuid4 id and time.time() reading are passed in explicitly. -/
def start_trace (ts : TraceStore) (tid operation : String) (now : Nat)
    (metadata : List (String × String)) : TraceStore :=
  fun t => if t = tid then some ⟨tid, operation, now, metadata, [], none, none⟩ else ts t

/-- Tracer.add_span: appends a span when the id is present, otherwise leaves
the store untouched (and never raises). -/
def add_span (ts : TraceStore) (tid spanName : String) (duration now : Nat)
    (metadata : List (String × String)) : TraceStore :=
  fun t =>
    if t = tid then
      match ts tid with
      | some tr => some { tr with spans := tr.spans ++ [⟨spanName, duration, now, metadata⟩] }
      | none => none
    else ts t

/-- Tracer.end_trace: unknown id returns the empty record (modelled none) and
leaves the store unchanged; otherwise sets end_time, computes
total_duration_ms = (end_time - start_time) * 1000, stores the updated record
in place and returns it. The record is not removed from the store. -/
def end_trace (ts : TraceStore) (tid : String) (now : Nat) : Option Trace × TraceStore :=
  match ts tid with
  | none => (none, ts)
  | some tr =>
      let tr2 := { tr with
        end_time := some now
        total_duration_ms := some (((now : Int) - (tr.start_time : Int)) * 1000) }
      (some tr2, fun t => if t = tid then some tr2 else ts t)

/-- The record end_trace produces from a stored trace at closing tick t1. -/
def endedTrace (tr : Trace) (t1 : Nat) : Trace :=
  { tr with
    end_time := some t1
    total_duration_ms := some (((t1 : Int) - (tr.start_time : Int)) * 1000) }

/-! ## Agents: agent.py, function_tool.py, callback_context.py -/

/-- A python value as far as the callback protocol observes it: the return of
after_agent_callback is kept when truthy and dropped when falsy. -/
inductive PyVal where
  | pynone
  | pystr (s : String)
  | pyint (n : Int)
  | pybool (b : Bool)
deriving Repr, DecidableEq

/-- Python truthiness on PyVal. -/
def PyVal.truthy : PyVal → Bool
  | .pynone => false
  | .pystr s => !s.isEmpty
  | .pyint n => n != 0
  | .pybool b => b

/-- Rendering of a PyVal as the response string it stands for (the python
code stores the callback result unchanged; every further consumer of the
response treats it as text). -/
def PyVal.pyToString : PyVal → String
  | .pynone => "None"
  | .pystr s => s
  | .pyint n => toString n
  | .pybool b => if b then "True" else "False"

/-- A JSON-serialisable tool result. -/
inductive Json where
  | jnull
  | jbool (b : Bool)
  | jnum (n : Int)
  | jstr (s : String)
  | jarr (xs : List Json)
  | jobj (fields : List (String × Json))
deriving Repr

/-- Escaping of quote and backslash inside a JSON string literal
(control-character escapes, which no tool result here uses, are omitted). -/
def jsonEscape (s : String) : String :=
  String.join (s.toList.map fun c =>
    if c = '"' then "\\\"" else if c = '\\' then "\\\\" else String.singleton c)

mutual
/-- json.dumps with the default separators. -/
def jsonDumps : Json → String
  | .jnull => "null"
  | .jbool b => if b then "true" else "false"
  | .jnum n => toString n
  | .jstr s => "\"" ++ jsonEscape s ++ "\""
  | .jarr xs => "[" ++ String.intercalate ", " (jsonDumpsList xs) ++ "]"
  | .jobj fs => "\x7b" ++ String.intercalate ", " (jsonDumpsFields fs) ++ "\x7d"

def jsonDumpsList : List Json → List String
  | [] => []
  | j :: js => jsonDumps j :: jsonDumpsList js

def jsonDumpsFields : List (String × Json) → List String
  | [] => []
  | kv :: fs => ("\"" ++ jsonEscape kv.1 ++ "\": " ++ jsonDumps kv.2) :: jsonDumpsFields fs
end

/-- FunctionTool: a named wrapper around a python callable. Every tool built
by the repository carries a concrete func, so execute(**args) is exactly
func(**args); keyword arguments are an association list of Json values.
The parameter-schema reflection (inspect.signature) only feeds the
declaration sent to the backend and is abstracted into the description. -/
structure FunctionTool where
  name : String
  description : String
  func : List (String × Json) → Json

/-- The function_call part of a backend response. -/
structure FunctionCall where
  name : String
  args : List (String × Json)

/-- A backend reply, as Agent._execute_llm observes it: either plain text or
the first part carrying a function_call. -/
inductive LLMResponse where
  | text (t : String)
  | toolCall (fc : FunctionCall)

/-- The tool declarations handed to the backend: name and description of each
tool (FunctionTool.to_gemini_declaration, with the reflected parameter schema
abstracted away; no claim depends on it). -/
abbrev ToolConfig := List (String × String)

/-- The backend oracle abstracting client.aio.models.generate_content:
arguments are model id, full prompt, system instruction and the optional tool
configuration; Except.error is a raised exception. -/
abbrev Backend := String → String → String → Option ToolConfig → Except String LLMResponse

/-- The context dictionary passed through an orchestration pass. Values are
rendered as strings (the json.dumps branch for nested values is not needed by
any claim). -/
abbrev Ctx := List (String × String)

mutual
/-- The recursive agent tree. self.client is mutable state set by
Agent.initialize, which hands the same client to every sub-agent; it is
modelled by the hasClient flag threaded through run. -/
inductive Agent where
  | mk (name model description instr : String)
       (tools : List FunctionTool)
       (subAgents : AgentList)
       (outputKey : Option String)
       (afterAgentCallback : Option (String → PyVal))

/-- Sub-agent lists, kept mutually inductive with Agent so that run can be
defined by structural recursion. -/
inductive AgentList where
  | anil
  | acons (head : Agent) (tail : AgentList)
end

def Agent.name : Agent → String
  | .mk n _ _ _ _ _ _ _ => n

def Agent.model : Agent → String
  | .mk _ m _ _ _ _ _ _ => m

def Agent.description : Agent → String
  | .mk _ _ d _ _ _ _ _ => d

def Agent.instr : Agent → String
  | .mk _ _ _ i _ _ _ _ => i

def Agent.tools : Agent → List FunctionTool
  | .mk _ _ _ _ ts _ _ _ => ts

def Agent.subAgents : Agent → AgentList
  | .mk _ _ _ _ _ subs _ _ => subs

def Agent.outputKey : Agent → Option String
  | .mk _ _ _ _ _ _ k _ => k

def AgentList.names : AgentList → List String
  | .anil => []
  | .acons a rest => a.name :: AgentList.names rest

/-- Agent._build_system_instruction: the nonempty parts joined by a blank
line. -/
def Agent.buildSystemInstruction (a : Agent) : String :=
  let parts :=
    (if a.description ≠ "" then ["Role: " ++ a.description] else []) ++
    (if a.instr ≠ "" then ["Instructions: " ++ a.instr] else []) ++
    (if !a.tools.isEmpty then
      ["Available tools: " ++ String.intercalate ", " (a.tools.map FunctionTool.name)]
     else []) ++
    (match a.subAgents with
     | .anil => []
     | subs => ["Sub-agents: " ++ String.intercalate ", " subs.names])
  String.intercalate "\n\n" parts

/-- Agent._build_full_prompt: appends a rendering of the context when it is
nonempty. -/
def build_full_prompt (ctx : Ctx) (prompt : String) : String :=
  if ctx = [] then prompt
  else prompt ++ "\n\nContext:\n" ++
    String.join (ctx.map fun kv => "- " ++ kv.1 ++ ": " ++ kv.2 ++ "\n")

/-- Agent._prepare_tool_config: None when the agent has no tools, otherwise
the declarations of all tools. -/
def prepare_tool_config (tools : List FunctionTool) : Option ToolConfig :=
  if tools.isEmpty then none
  else some (tools.map fun t => (t.name, t.description))

/-- Agent._execute_tool_call: the first tool whose name equals the requested
name is executed with the backend-supplied arguments and its result is
serialised; when no tool matches, a structured error payload is serialised
instead (never raised). Every tool of this repository has both a name and a
callable func, so first-match lookup is exact. -/
def execute_tool_call (tools : List FunctionTool) (fc : FunctionCall) : String :=
  match tools.find? (fun t => t.name == fc.name) with
  | some t => jsonDumps (t.func fc.args)
  | none => jsonDumps (.jobj [("error", .jstr ("Tool " ++ fc.name ++ " not found"))])

/-- Agent._execute_llm: one backend call; a function_call part is dispatched
to execute_tool_call and the tool result is returned as the response with no
further backend call; a text part is returned as is. -/
def execute_llm (backend : Backend) (model : String) (tools : List FunctionTool)
    (prompt sysInstr : String) : Except String String :=
  match backend model prompt sysInstr (prepare_tool_config tools) with
  | .error e => .error e
  | .ok (.text t) => .ok t
  | .ok (.toolCall fc) => .ok (execute_tool_call tools fc)

/-- The outcome field of the dictionary returned by Agent.run: either a
response key or an error key. -/
inductive RunOutcome where
  | resp (text : String)
  | fail (msg : String)
deriving Repr, DecidableEq

/-- The dictionary returned by Agent.run:
\x7bagent, response | error, output_key\x7d. -/
structure RunResult where
  agent : String
  outcome : RunOutcome
  output_key : Option String
deriving Repr, DecidableEq

/-- result.get("response", ""): the error form of the dictionary has no
response key, so it reads as the empty string. -/
def RunResult.responseOrEmpty (r : RunResult) : String :=
  match r.outcome with
  | .resp t => t
  | .fail _ => ""

mutual
/-- Agent.run. Raises (Except.error) when the agent has no client; otherwise
every failure inside the body is caught and folded into the error form of the
result dictionary. The sub-agent pass and the callback application mirror
agent.py lines 68-94, and _execute_sub_agents (lines 223-235) is inlined as
the runSubList branch: note that every sub-agent is run with
prompt = parent_response and context = self.context. -/
def Agent.run (backend : Backend) (hasClient : Bool) :
    Agent → String → Ctx → Except String RunResult
  | .mk nm md ds ins tools subs okey cb, prompt, ctx =>
    if !hasClient then
      .error ("Agent " ++ nm ++ " not initialized with client")
    else
      let a := Agent.mk nm md ds ins tools subs okey cb
      let fullPrompt := build_full_prompt ctx prompt
      match execute_llm backend md tools fullPrompt a.buildSystemInstruction with
      | .error e => .ok ⟨nm, .fail e, okey⟩
      | .ok resp0 =>
        let sub :=
          match subs with
          | .anil => Except.ok resp0
          | _ =>
            match Agent.runSubList backend hasClient subs resp0 ctx with
            | .error e => .error e
            | .ok segs =>
                .ok (String.intercalate "\n"
                  (("[" ++ nm ++ " Initial Response]\n" ++ resp0) :: segs))
        match sub with
        | .error e => .ok ⟨nm, .fail e, okey⟩
        | .ok resp1 =>
          let resp2 :=
            match cb with
            | none => resp1
            | some f => let r := f resp1; if r.truthy then r.pyToString else resp1
          .ok ⟨nm, .resp resp2, okey⟩

/-- The loop of Agent._execute_sub_agents: each sub-agent is run with the
parent response as prompt (the loop variable parent_response is never
reassigned) and contributes one labelled segment built from
result.get("response", ""); an exception raised by a sub-agent run would
abort the loop and propagate. -/
def Agent.runSubList (backend : Backend) (hasClient : Bool) :
    AgentList → String → Ctx → Except String (List String)
  | .anil, _, _ => .ok []
  | .acons s rest, parentResp, ctx =>
    match Agent.run backend hasClient s parentResp ctx with
    | .error e => .error e
    | .ok r =>
      match Agent.runSubList backend hasClient rest parentResp ctx with
      | .error e => .error e
      | .ok segs =>
          .ok (("\n[" ++ s.name ++ " Response]\n" ++ r.responseOrEmpty) :: segs)
end

/-- Observer: the response text of a run result; empty for a raised run or an
error-form result. -/
def respTextOf : Except String RunResult → String
  | .ok r => r.responseOrEmpty
  | .error _ => ""

/-- Observer: what one sub-agent contributes when run on a given prompt. -/
def subRunText (backend : Backend) (a : Agent) (prompt : String) (ctx : Ctx) : String :=
  respTextOf (Agent.run backend true a prompt ctx)

/-- Observer: the labelled segments the sub-agent pass of agent.py produces,
every sub-agent run on the same parent prompt. -/
def subSegs (backend : Backend) : AgentList → String → Ctx → List String
  | .anil, _, _ => []
  | .acons s rest, prompt, ctx =>
    ("\n[" ++ s.name ++ " Response]\n" ++ subRunText backend s prompt ctx) ::
      subSegs backend rest prompt ctx

/-- Modelled from the spec words for the sub-agent pass, to compare with the
code: each sub-agent receives as input the output of the previous sub-agent
(the first one receives the root output) and contributes its labelled
segment. agent.py itself does not implement this chaining. -/
def chainedSegs (backend : Backend) : AgentList → String → Ctx → List String
  | .anil, _, _ => []
  | .acons s rest, prevOut, ctx =>
    let out := subRunText backend s prevOut ctx
    ("\n[" ++ s.name ++ " Response]\n" ++ out) :: chainedSegs backend rest out ctx

/-- Modelled from the spec words: the concatenated output of a root node
under input chaining between consecutive sub-agents. -/
def chainedRunText (backend : Backend) (rootName : String) (subs : AgentList)
    (rootResp : String) (ctx : Ctx) : String :=
  String.intercalate "\n"
    (("[" ++ rootName ++ " Initial Response]\n" ++ rootResp) ::
      chainedSegs backend subs rootResp ctx)

/-- Whether pat occurs contiguously at the head of hay. -/
def headSeg : List Char → List Char → Bool
  | [], _ => true
  | _ :: _, [] => false
  | p :: ps, h :: hs => p == h && headSeg ps hs

/-- Whether pat occurs contiguously anywhere inside hay: the observer used to
state that an error message appears inside a concatenated output. -/
def occursIn (pat : List Char) : List Char → Bool
  | [] => headSeg pat []
  | h :: hs => headSeg pat (h :: hs) || occursIn pat hs

/-! ## Runner: runner.py -/

/-- RunnerEvent: the streamed event. content is a single text part; metadata
a small dictionary. -/
structure RunnerEvent where
  text : String
  agentName : String
  isFinal : Bool
  metadata : List (String × String)
deriving Repr, DecidableEq

/-- The agent collaborator as Runner.run_async uses it (the agent argument of
Runner is duck-typed): given the message text and the session context it
either raises (Except.error) or returns a result dictionary whose optional
response field is read with result.get("response", "No response"). When the
Runner has a client, this stands for Agent.run after Agent.initialize. -/
abbrev RunnerAgent := String → Ctx → Except String (Option String)

/-- Runner.run_async, runner.py lines 60-153, driven to completion: the pair
of the streamed event list and the updated session store. The message text
extraction from the Content parts is applied before the call; the kept
session is always truthy (a nonempty dictionary), so both history writes
always happen on the non-raising paths. -/
def run_async (hasClient : Bool) (agentName : String) (agentRun : RunnerAgent)
    (app user sid msg : String) (st : SessionStore) :
    List RunnerEvent × SessionStore :=
  let p := get_session st app user sid
  let ev1 : RunnerEvent :=
    ⟨"Processing with " ++ agentName ++ "...", agentName, false, []⟩
  if hasClient then
    match agentRun msg p.1.context with
    | .error e =>
        ([ev1, ⟨"Error: " ++ e, agentName, true, [("error", e)]⟩], p.2)
    | .ok r =>
        let responseText := r.getD "No response"
        let st2 := (add_message p.2 app user sid "user" msg []).2
        let st3 := (add_message st2 app user sid "assistant" responseText []).2
        ([ev1, ⟨responseText, agentName, true, [("session_id", sid)]⟩], st3)
  else
    let responseText :=
      "[Mock Response] " ++ agentName ++ " processed: " ++ msg.take 100
    let st2 := (add_message p.2 app user sid "user" msg []).2
    let st3 := (add_message st2 app user sid "assistant" responseText []).2
    ([ev1, ⟨responseText, agentName, true, [("session_id", sid)]⟩], st3)

/-! ## Concrete instances used by counterexamples and witnesses -/

/-- Backend for the C1 instance: the root produces ROOT, subA produces ALPHA,
subB echoes its prompt (so its output reveals the input it was given), subC
produces GAMMA. -/
def c1Backend : Backend := fun model prompt _ _ =>
  if model = "mB" then .ok (.text prompt)
  else if model = "mroot" then .ok (.text "ROOT")
  else if model = "mA" then .ok (.text "ALPHA")
  else .ok (.text "GAMMA")

def c1A : Agent := .mk "subA" "mA" "" "" [] .anil none none

def c1B : Agent := .mk "subB" "mB" "" "" [] .anil none none

def c1C : Agent := .mk "subC" "mC" "" "" [] .anil none none

def c1Root : Agent :=
  .mk "root" "mroot" "" "" [] (.acons c1A (.acons c1B (.acons c1C .anil))) none none

/-- Backend for the C2 instance: the subA model raises, subB answers. -/
def c2Backend : Backend := fun model _ _ _ =>
  if model = "mroot" then .ok (.text "ROOT")
  else if model = "mA" then .error "LLM down"
  else .ok (.text "BRAVO")

def c2A : Agent := .mk "subA" "mA" "" "" [] .anil none none

def c2B : Agent := .mk "subB" "mB" "" "" [] .anil none none

def c2Root : Agent :=
  .mk "root" "mroot" "" "" [] (.acons c2A (.acons c2B .anil)) none none

/-- A trace store holding the single open trace t1, as left by start_trace. -/
def c4Store : TraceStore := start_trace emptyTraces "t1" "op" 0 []

/-- A concrete tool for the C5 instance. -/
def c5Tool : FunctionTool := ⟨"adder", "adds numbers", fun _ => .jnum 42⟩

/-- Backend whose reply signals a call of the tool named adder. -/
def c5Backend : Backend := fun _ _ _ _ => .ok (.toolCall ⟨"adder", [("x", .jnum 1)]⟩)

/-- Backend whose reply requests a tool name no tool of the node carries. -/
def c5BackendGhost : Backend := fun _ _ _ _ => .ok (.toolCall ⟨"ghost", []⟩)

/-- A session store holding the single fresh session (a, u, s). -/
def c6Store : SessionStore := (create_session emptyStore "a" "u" "s" []).2

/-- The c6Store after one add_message call. -/
def c7Store : SessionStore :=
  (add_message c6Store "a" "u" "s" "user" "hi" []).2

/-- Backend returning a fixed text, for the C10 instance. -/
def c10Backend : Backend := fun _ _ _ _ => .ok (.text "BASE")

/-! ## Helper lemmas -/

theorem storeInsert_self (st : SessionStore) (k : SessionKey) (s : Session) :
    storeInsert st k s k = some s := by
  simp [storeInsert]

theorem get_session_of_some (st : SessionStore) (app user sid : String) (s : Session)
    (h : st (app, user, sid) = some s) :
    get_session st app user sid = (s, st) := by
  unfold get_session
  rw [h]

theorem get_session_lookup (st : SessionStore) (app user sid : String) :
    (get_session st app user sid).2 (app, user, sid) = some (get_session st app user sid).1 := by
  unfold get_session create_session
  cases h : st (app, user, sid) <;> simp [storeInsert, h]

theorem add_message_lookup (st : SessionStore) (app user sid role content : String)
    (md : List (String × String)) :
    (add_message st app user sid role content md).2 (app, user, sid) =
      some { (get_session st app user sid).1 with
             messages := (get_session st app user sid).1.messages ++ [⟨role, content, md⟩] } := by
  unfold add_message
  simp [storeInsert]

theorem add_messages_lookup (app user sid : String) :
    ∀ (ms : List (String × String)) (st : SessionStore) (s : Session),
      st (app, user, sid) = some s →
      (add_messages st app user sid ms) (app, user, sid) =
        some { s with messages := s.messages ++ ms.map (fun rc => ⟨rc.1, rc.2, []⟩) } := by
  intro ms
  induction ms with
  | nil =>
    intro st s h
    simpa [add_messages] using h
  | cons rc rest ih =>
    intro st s h
    have h1 : (add_message st app user sid rc.1 rc.2 []).2 (app, user, sid) =
        some { s with messages := s.messages ++ [⟨rc.1, rc.2, []⟩] } := by
      rw [add_message_lookup, get_session_of_some st app user sid s h]
    have h2 := ih _ _ h1
    simp only [add_messages, List.foldl_cons] at h2 ⊢
    rw [h2]
    simp

theorem end_trace_of_some (ts : TraceStore) (tid : String) (tr : Trace) (now : Nat)
    (h : ts tid = some tr) :
    end_trace ts tid now =
      (some (endedTrace tr now),
       fun t => if t = tid then some (endedTrace tr now) else ts t) := by
  unfold end_trace endedTrace
  rw [h]

theorem run_hasClient_ok (backend : Backend) (a : Agent) (p : String) (ctx : Ctx) :
    ∃ r, Agent.run backend true a p ctx = Except.ok r := by
  cases a with
  | mk nm md ds ins tools subs okey cb =>
    simp only [Agent.run, Bool.not_true, Bool.false_eq_true, if_false]
    split
    · exact ⟨_, rfl⟩
    · split
      · exact ⟨_, rfl⟩
      · exact ⟨_, rfl⟩

theorem runSubList_eq (backend : Backend) :
    ∀ (l : AgentList) (prompt : String) (ctx : Ctx),
      Agent.runSubList backend true l prompt ctx = .ok (subSegs backend l prompt ctx)
  | .anil, _, _ => rfl
  | .acons s rest, prompt, ctx => by
    obtain ⟨r, hr⟩ := run_hasClient_ok backend s prompt ctx
    have ih := runSubList_eq backend rest prompt ctx
    simp only [Agent.runSubList, hr, ih, subSegs, subRunText, respTextOf]

/-! ## Claim theorems -/

/-- Claim C6: for a (app_name, user_id, session_id) key never seen before,
the first get_session call creates and returns a session with empty message
history whose stored ids match the key, and a subsequent get_session call on
the same key returns the very same record and leaves the store unchanged.
get_session never returns nothing: its return type is a Session, not an
optional one. -/
theorem get_session_get_or_create (st : SessionStore) (app user sid : String)
    (h : st (app, user, sid) = none) :
    (get_session st app user sid).1.messages = [] ∧
    (get_session st app user sid).1.session_id = sid ∧
    (get_session st app user sid).1.user_id = user ∧
    (get_session st app user sid).1.app_name = app ∧
    get_session (get_session st app user sid).2 app user sid =
      ((get_session st app user sid).1, (get_session st app user sid).2) := by
  have h1 : get_session st app user sid =
      (⟨sid, user, app, [], [], []⟩, storeInsert st (app, user, sid) ⟨sid, user, app, [], [], []⟩) := by
    unfold get_session create_session
    rw [h]
  refine ⟨by rw [h1], by rw [h1], by rw [h1], by rw [h1], ?_⟩
  rw [h1]
  exact get_session_of_some _ app user sid _ (storeInsert_self _ _ _)

/-- Witness for C6 at the empty store. -/
theorem get_session_get_or_create_witness :
    (get_session emptyStore "a" "u" "s").1.messages = [] ∧
    (get_session emptyStore "a" "u" "s").1.session_id = "s" ∧
    (get_session emptyStore "a" "u" "s").1.user_id = "u" ∧
    (get_session emptyStore "a" "u" "s").1.app_name = "a" ∧
    get_session (get_session emptyStore "a" "u" "s").2 "a" "u" "s" =
      ((get_session emptyStore "a" "u" "s").1, (get_session emptyStore "a" "u" "s").2) :=
  get_session_get_or_create emptyStore "a" "u" "s" rfl

/-- Claim C7, counterexample: after one add_message, get_messages with
limit = 0 returns the full one-element history, not the last
min(0, 1) = 0 entries the claim asks for: in python `if limit:` is false at
limit = 0, so the limit is silently ignored. -/
theorem get_messages_limit_zero_cex :
    (get_messages c7Store "a" "u" "s" (some 0)).1 = [⟨"user", "hi", []⟩] ∧
    (get_messages c7Store "a" "u" "s" (some 0)).1.length ≠ min 0 1 := by
  decide

/-- Claim C7 (amended): after N add_message calls on a session that starts
with an empty history, get_messages with limit = None returns exactly the N
entries in call order; for every k ≥ 1 it returns the last min(k, N) entries
(stated as dropping all but the final k.toNat, which is that suffix); and for
k = 0 the limit is falsy in python, so the call returns all N entries rather
than none. -/
theorem get_messages_after_adds (app user sid : String) (st : SessionStore) (s : Session)
    (L : List (String × String)) (hs : st (app, user, sid) = some s)
    (h0 : s.messages = []) :
    (get_messages (add_messages st app user sid L) app user sid none).1 =
      L.map (fun rc => (⟨rc.1, rc.2, []⟩ : Message)) ∧
    (∀ k : Int, 1 ≤ k →
      (get_messages (add_messages st app user sid L) app user sid (some k)).1 =
        (L.map (fun rc => (⟨rc.1, rc.2, []⟩ : Message))).drop (L.length - k.toNat)) ∧
    (get_messages (add_messages st app user sid L) app user sid (some 0)).1 =
      L.map (fun rc => (⟨rc.1, rc.2, []⟩ : Message)) := by
  have hl := add_messages_lookup app user sid L st s hs
  rw [h0] at hl
  simp only [List.nil_append] at hl
  have hgs := get_session_of_some (add_messages st app user sid L) app user sid _ hl
  refine ⟨?_, ?_, ?_⟩
  · simp [get_messages, hgs]
  · intro k hk
    have hk0 : k ≠ 0 := by omega
    simp only [get_messages, hgs, hk0, if_true, ne_eq, not_false_eq_true, ite_true]
    simp only [pySliceFrom]
    have hneg : -k < 0 := by omega
    rw [if_pos hneg]
    congr 1
    simp only [List.length_map]
    omega
  · simp [get_messages, hgs]

/-- Witness for the amended C7 at a two-message history. -/
theorem get_messages_after_adds_witness :
    (get_messages (add_messages c6Store "a" "u" "s" [("user", "m1"), ("assistant", "m2")])
        "a" "u" "s" none).1 =
      [⟨"user", "m1", []⟩, ⟨"assistant", "m2", []⟩] ∧
    (get_messages (add_messages c6Store "a" "u" "s" [("user", "m1"), ("assistant", "m2")])
        "a" "u" "s" (some 1)).1 = [⟨"assistant", "m2", []⟩] ∧
    (get_messages (add_messages c6Store "a" "u" "s" [("user", "m1"), ("assistant", "m2")])
        "a" "u" "s" (some 0)).1 =
      [⟨"user", "m1", []⟩, ⟨"assistant", "m2", []⟩] := by
  have h := get_messages_after_adds "a" "u" "s" c6Store ⟨"s", "u", "a", [], [], []⟩
    [("user", "m1"), ("assistant", "m2")] (by decide) rfl
  refine ⟨h.1, ?_, h.2.2⟩
  have h1 := h.2.1 1 (by decide)
  simpa using h1

/-- Claim C4, counterexample: end_trace does not consume the trace. After
start_trace and end_trace on id t1, a further add_span still records a span
(the store still holds t1, now with one span instead of zero), and a second
end_trace still returns the full record rather than an empty one. -/
theorem end_trace_consumed_cex :
    ((add_span (end_trace c4Store "t1" 5).2 "t1" "s" 3 7 []) "t1").map
        (fun tr => tr.spans.length) = some 1 ∧
    (end_trace (add_span (end_trace c4Store "t1" 5).2 "t1" "s" 3 7 []) "t1" 9).1 ≠ none := by
  decide

/-- Claim C4 (amended): end_trace on a stored id returns the completed record
(end_time set, total duration computed) and keeps it in the store, so the
trace is not consumed: a later add_span on the same id still appends a span
(and does not raise), and a second end_trace returns the full record again
rather than an empty one. Only end_trace on an id that was never started
returns the empty record, leaving the store untouched. -/
theorem end_trace_not_consumed (ts : TraceStore) (tid : String) (tr : Trace)
    (t1 t2 dur now : Nat) (spanName : String) (h : ts tid = some tr) :
    (end_trace ts tid t1).1 = some (endedTrace tr t1) ∧
    (end_trace ts tid t1).2 tid = some (endedTrace tr t1) ∧
    (add_span (end_trace ts tid t1).2 tid spanName dur now []) tid =
      some { endedTrace tr t1 with
             spans := (endedTrace tr t1).spans ++ [⟨spanName, dur, now, []⟩] } ∧
    (end_trace (add_span (end_trace ts tid t1).2 tid spanName dur now []) tid t2).1 ≠ none ∧
    (∀ u, ts u = none → end_trace ts u t2 = (none, ts)) := by
  have h1 := end_trace_of_some ts tid tr t1 h
  have h2 : (end_trace ts tid t1).2 tid = some (endedTrace tr t1) := by
    rw [h1]
    simp
  have h3 : (add_span (end_trace ts tid t1).2 tid spanName dur now []) tid =
      some { endedTrace tr t1 with
             spans := (endedTrace tr t1).spans ++ [⟨spanName, dur, now, []⟩] } := by
    unfold add_span
    rw [h2]
    simp
  refine ⟨by rw [h1], h2, h3, ?_, ?_⟩
  · rw [end_trace_of_some _ _ _ t2 h3]
    simp
  · intro u hu
    unfold end_trace
    rw [hu]

/-- Witness for the amended C4 at the singleton trace store. -/
theorem end_trace_not_consumed_witness :
    (end_trace c4Store "t1" 5).1 = some (endedTrace ⟨"t1", "op", 0, [], [], none, none⟩ 5) ∧
    (add_span (end_trace c4Store "t1" 5).2 "t1" "s" 3 7 []) "t1" =
      some { endedTrace ⟨"t1", "op", 0, [], [], none, none⟩ 5 with
             spans := (endedTrace ⟨"t1", "op", 0, [], [], none, none⟩ 5).spans
               ++ [⟨"s", 3, 7, []⟩] } := by
  have h := end_trace_not_consumed c4Store "t1"
    ⟨"t1", "op", 0, [], [], none, none⟩ 5 9 3 7 "s" (by decide)
  exact ⟨h.1, h.2.2.1⟩

/-- Claim C9: running an agent that was never handed a client raises the
fatal not-initialized precondition error to the caller (an Except.error, the
model of an uncaught RuntimeError), instead of being folded into the
\x7bagent_name, error, output_key\x7d error-result form the way in-run
failures are. -/
theorem run_before_init_raises (backend : Backend) (a : Agent) (p : String) (ctx : Ctx) :
    Agent.run backend false a p ctx =
      Except.error ("Agent " ++ a.name ++ " not initialized with client") := by
  cases a with
  | mk nm md ds ins tools subs okey cb => rfl

/-- Claim C1, counterexample: with a root whose second sub-agent echoes its
prompt, the actual output of run differs from the output the claim predicts
under input chaining. The echoing sub-agent subB reports ROOT (the root
initial response, which every sub-agent receives as prompt), while the
chained reading of the claim predicts it reports ALPHA (the preceding
sibling output). The claim conjunction is therefore false at this input. -/
theorem subagent_chaining_cex :
    respTextOf (Agent.run c1Backend true c1Root "go" []) =
      "[root Initial Response]\nROOT\n\n[subA Response]\nALPHA\n\n[subB Response]\nROOT\n\n[subC Response]\nGAMMA" ∧
    chainedRunText c1Backend "root" (.acons c1A (.acons c1B (.acons c1C .anil))) "ROOT" [] =
      "[root Initial Response]\nROOT\n\n[subA Response]\nALPHA\n\n[subB Response]\nALPHA\n\n[subC Response]\nGAMMA" ∧
    respTextOf (Agent.run c1Backend true c1Root "go" []) ≠
      chainedRunText c1Backend "root" (.acons c1A (.acons c1B (.acons c1C .anil))) "ROOT" [] := by
  decide

/-- Claim C1 (amended): for a root node with sub-agents [A, B, C] whose own
backend call succeeds with text t and that has no callback, run succeeds and
its response text is the concatenation of the root segment followed by the A,
B and C segments in that exact order; however each of A, B and C is run with
input t — the root node own output — and the shared context, not with the
preceding sibling output: the loop in _execute_sub_agents never reassigns
parent_response. -/
theorem subagents_receive_root_output (backend : Backend) (nm md ds ins : String)
    (tools : List FunctionTool) (okey : Option String) (A B C : Agent)
    (p : String) (ctx : Ctx) (t : String)
    (hb : backend md (build_full_prompt ctx p)
        (Agent.buildSystemInstruction
          (.mk nm md ds ins tools (.acons A (.acons B (.acons C .anil))) okey none))
        (prepare_tool_config tools) = .ok (.text t)) :
    Agent.run backend true
        (.mk nm md ds ins tools (.acons A (.acons B (.acons C .anil))) okey none) p ctx =
      .ok ⟨nm, .resp (String.intercalate "\n"
        [("[" ++ nm ++ " Initial Response]\n" ++ t),
         ("\n[" ++ A.name ++ " Response]\n" ++ subRunText backend A t ctx),
         ("\n[" ++ B.name ++ " Response]\n" ++ subRunText backend B t ctx),
         ("\n[" ++ C.name ++ " Response]\n" ++ subRunText backend C t ctx)]), okey⟩ := by
  simp only [Agent.run, Bool.not_true, Bool.false_eq_true, if_false, execute_llm, hb,
    runSubList_eq, subSegs]

/-- Witness for the amended C1 at the concrete echo instance. -/
theorem subagents_receive_root_output_witness :
    Agent.run c1Backend true c1Root "go" [] =
      .ok ⟨"root", .resp (String.intercalate "\n"
        [("[" ++ "root" ++ " Initial Response]\n" ++ "ROOT"),
         ("\n[" ++ c1A.name ++ " Response]\n" ++ subRunText c1Backend c1A "ROOT" []),
         ("\n[" ++ c1B.name ++ " Response]\n" ++ subRunText c1Backend c1B "ROOT" []),
         ("\n[" ++ c1C.name ++ " Response]\n" ++ subRunText c1Backend c1C "ROOT" [])]), none⟩ :=
  subagents_receive_root_output c1Backend "root" "mroot" "" "" [] none c1A c1B c1C
    "go" [] "ROOT" rfl

/-- Claim C2, counterexample: a sub-agent whose backend call raises LLM down
contributes an empty response-labelled segment — its error message does not
appear anywhere in the parent concatenated output, because
_execute_sub_agents reads result.get("response", "") and the error form of
the result dictionary has no response key. -/
theorem failing_subagent_message_dropped_cex :
    respTextOf (Agent.run c2Backend true c2Root "go" []) =
      "[root Initial Response]\nROOT\n\n[subA Response]\n\n\n[subB Response]\nBRAVO" ∧
    occursIn "LLM down".toList
      (respTextOf (Agent.run c2Backend true c2Root "go" [])).toList = false := by
  decide

/-- Claim C2 (amended): a sub-agent whose backend call fails does not raise
to the parent: the parent still returns a normal response and every sibling
scheduled after the failing one is still executed; but the failing sub-agent
contributes an empty response-labelled segment to the concatenated output —
its error message is dropped, not included. -/
theorem failing_subagent_not_fatal (backend : Backend) (nm md ds ins : String)
    (tools : List FunctionTool) (okey : Option String) (A : Agent) (rest : AgentList)
    (p : String) (ctx : Ctx) (t na e : String) (ka : Option String)
    (hb : backend md (build_full_prompt ctx p)
        (Agent.buildSystemInstruction (.mk nm md ds ins tools (.acons A rest) okey none))
        (prepare_tool_config tools) = .ok (.text t))
    (hA : Agent.run backend true A t ctx = .ok ⟨na, .fail e, ka⟩) :
    Agent.run backend true (.mk nm md ds ins tools (.acons A rest) okey none) p ctx =
      .ok ⟨nm, .resp (String.intercalate "\n"
        (("[" ++ nm ++ " Initial Response]\n" ++ t) ::
         ("\n[" ++ A.name ++ " Response]\n") ::
         subSegs backend rest t ctx)), okey⟩ := by
  simp only [Agent.run, Bool.not_true, Bool.false_eq_true, if_false, execute_llm, hb,
    Agent.runSubList, hA, runSubList_eq, RunResult.responseOrEmpty]
  simp

/-- Witness for the amended C2 at the concrete failing instance. -/
theorem failing_subagent_not_fatal_witness :
    Agent.run c2Backend true c2Root "go" [] =
      .ok ⟨"root", .resp (String.intercalate "\n"
        (("[" ++ "root" ++ " Initial Response]\n" ++ "ROOT") ::
         ("\n[" ++ c2A.name ++ " Response]\n") ::
         subSegs c2Backend (.acons c2B .anil) "ROOT" [])), none⟩ :=
  failing_subagent_not_fatal c2Backend "root" "mroot" "" "" [] none c2A
    (.acons c2B .anil) "go" [] "ROOT" "subA" "LLM down" none rfl rfl

/-- Claim C5: when the backend reply of a node signals a tool invocation,
the tool matched by exact name is executed with the backend-supplied
arguments and its serialised result is the node response directly — no
second backend round-trip (the single backend call of _execute_llm is the
only one in the run). When no tool of the node matches the requested name, a
structured tool-not-found error payload is serialised into the node response
(a normal response, not a raised error). Stated for a node without
sub-agents or callback, which is where tool dispatch happens. -/
theorem tool_dispatch (backend : Backend) (nm md ds ins : String)
    (tools : List FunctionTool) (okey : Option String)
    (p : String) (ctx : Ctx) (fn : String) (args : List (String × Json))
    (hb : backend md (build_full_prompt ctx p)
        (Agent.buildSystemInstruction (.mk nm md ds ins tools .anil okey none))
        (prepare_tool_config tools) = .ok (.toolCall ⟨fn, args⟩)) :
    (∀ t, tools.find? (fun tl => tl.name == fn) = some t →
        Agent.run backend true (.mk nm md ds ins tools .anil okey none) p ctx =
          .ok ⟨nm, .resp (jsonDumps (t.func args)), okey⟩) ∧
    (tools.find? (fun tl => tl.name == fn) = none →
        Agent.run backend true (.mk nm md ds ins tools .anil okey none) p ctx =
          .ok ⟨nm, .resp (jsonDumps (.jobj
            [("error", .jstr ("Tool " ++ fn ++ " not found"))])), okey⟩) := by
  constructor
  · intro t ht
    simp only [Agent.run, Bool.not_true, Bool.false_eq_true, if_false, execute_llm, hb,
      execute_tool_call, ht]
  · intro ht
    simp only [Agent.run, Bool.not_true, Bool.false_eq_true, if_false, execute_llm, hb,
      execute_tool_call, ht]

/-- Witness for C5: a matched tool runs and an unmatched name yields the
error payload. -/
theorem tool_dispatch_witness :
    Agent.run c5Backend true (.mk "n" "m" "" "" [c5Tool] .anil none none) "p" [] =
      .ok ⟨"n", .resp (jsonDumps (c5Tool.func [("x", .jnum 1)])), none⟩ ∧
    Agent.run c5BackendGhost true (.mk "n" "m" "" "" [c5Tool] .anil none none) "p" [] =
      .ok ⟨"n", .resp (jsonDumps (.jobj
        [("error", .jstr ("Tool " ++ "ghost" ++ " not found"))])), none⟩ :=
  ⟨(tool_dispatch c5Backend "n" "m" "" "" [c5Tool] none "p" [] "adder"
      [("x", .jnum 1)] rfl).1 c5Tool rfl,
   (tool_dispatch c5BackendGhost "n" "m" "" "" [c5Tool] none "p" [] "ghost" [] rfl).2 rfl⟩

/-- Claim C10: for a node with an after_agent_callback and a successful
backend call, the callback return value replaces the response only when it
is truthy; a falsy return (None, the empty string, zero, False) leaves the
original response unchanged. Stated for a node without sub-agents, whose
successful response is the backend text itself. -/
theorem callback_truthiness (backend : Backend) (nm md ds ins : String)
    (tools : List FunctionTool) (okey : Option String) (f : String → PyVal)
    (p : String) (ctx : Ctx) (t : String)
    (hb : backend md (build_full_prompt ctx p)
        (Agent.buildSystemInstruction (.mk nm md ds ins tools .anil okey (some f)))
        (prepare_tool_config tools) = .ok (.text t)) :
    Agent.run backend true (.mk nm md ds ins tools .anil okey (some f)) p ctx =
      .ok ⟨nm, .resp (if (f t).truthy then (f t).pyToString else t), okey⟩ := by
  simp only [Agent.run, Bool.not_true, Bool.false_eq_true, if_false, execute_llm, hb]

/-- Witness for C10: a callback returning None leaves the response BASE
unchanged; a callback returning a nonempty string replaces it. -/
theorem callback_truthiness_witness :
    Agent.run c10Backend true (.mk "n" "m" "" "" [] .anil none (some (fun _ => .pynone)))
        "p" [] = .ok ⟨"n", .resp "BASE", none⟩ ∧
    Agent.run c10Backend true
        (.mk "n" "m" "" "" [] .anil none (some (fun s => .pystr (s ++ "!")))) "p" [] =
      .ok ⟨"n", .resp "BASE!", none⟩ := by
  constructor
  · have h := callback_truthiness c10Backend "n" "m" "" "" [] none
      (fun _ => .pynone) "p" [] "BASE" rfl
    simpa using h
  · have h := callback_truthiness c10Backend "n" "m" "" "" [] none
      (fun s => .pystr (s ++ "!"))  "p" [] "BASE" rfl
    simpa using h

/-- Claim C3: every drive of Runner.run_async yields exactly two events: one
non-final progress event announcing the agent, then exactly one final event.
On success the final event carries the response text and session_id
metadata; when the agent collaborator raises, the final event carries the
error message and error metadata. The stream never ends without a final
event and never yields a second one. -/
theorem runner_stream_shape (hasClient : Bool) (agentName : String)
    (agentRun : RunnerAgent) (app user sid msg : String) (st : SessionStore) :
    ∃ fin : RunnerEvent,
      (run_async hasClient agentName agentRun app user sid msg st).1 =
        [⟨"Processing with " ++ agentName ++ "...", agentName, false, []⟩, fin] ∧
      fin.isFinal = true ∧
      ((fin.metadata = [("session_id", sid)] ∧
        (if hasClient then
          ∃ r, agentRun msg (get_session st app user sid).1.context = .ok r ∧
            fin.text = r.getD "No response"
         else
          fin.text = "[Mock Response] " ++ agentName ++ " processed: " ++ msg.take 100)) ∨
       (∃ e, agentRun msg (get_session st app user sid).1.context = .error e ∧
          fin.text = "Error: " ++ e ∧ fin.metadata = [("error", e)])) := by
  cases hasClient with
  | false =>
    exact ⟨⟨"[Mock Response] " ++ agentName ++ " processed: " ++ msg.take 100,
      agentName, true, [("session_id", sid)]⟩, rfl, rfl, Or.inl ⟨rfl, rfl⟩⟩
  | true =>
    cases h : agentRun msg (get_session st app user sid).1.context with
    | error e =>
      refine ⟨⟨"Error: " ++ e, agentName, true, [("error", e)]⟩, ?_, rfl,
        Or.inr ⟨e, rfl, rfl, rfl⟩⟩
      simp [run_async, h]
    | ok r =>
      refine ⟨⟨r.getD "No response", agentName, true, [("session_id", sid)]⟩, ?_, rfl,
        Or.inl ⟨rfl, ⟨r, rfl, rfl⟩⟩⟩
      simp [run_async, h]

/-- Claim C8: a Runner without a backend handle still yields one non-final
event and exactly one final event whose text is the deterministic mock
response echoing the agent name and the first 100 characters of the input,
and still appends exactly the inbound user message followed by the assistant
response to the session history, in that order. -/
theorem mock_mode (agentName : String) (agentRun : RunnerAgent)
    (app user sid msg : String) (st : SessionStore) :
    (run_async false agentName agentRun app user sid msg st).1 =
      [⟨"Processing with " ++ agentName ++ "...", agentName, false, []⟩,
       ⟨"[Mock Response] " ++ agentName ++ " processed: " ++ msg.take 100,
        agentName, true, [("session_id", sid)]⟩] ∧
    ((run_async false agentName agentRun app user sid msg st).2 (app, user, sid)).map
        Session.messages =
      some ((get_session st app user sid).1.messages ++
        [⟨"user", msg, []⟩,
         ⟨"assistant", "[Mock Response] " ++ agentName ++ " processed: " ++ msg.take 100,
          []⟩]) := by
  constructor
  · rfl
  · have hP : (get_session st app user sid).2 (app, user, sid) =
        some (get_session st app user sid).1 := get_session_lookup st app user sid
    have hgs1 := get_session_of_some _ app user sid _ hP
    have h2 := add_message_lookup (get_session st app user sid).2 app user sid "user" msg []
    rw [hgs1] at h2
    have hgs2 := get_session_of_some _ app user sid _ h2
    have h3 := add_message_lookup
      (add_message (get_session st app user sid).2 app user sid "user" msg []).2
      app user sid "assistant"
      ("[Mock Response] " ++ agentName ++ " processed: " ++ msg.take 100) []
    rw [hgs2] at h3
    show ((add_message
        (add_message (get_session st app user sid).2 app user sid "user" msg []).2
        app user sid "assistant"
        ("[Mock Response] " ++ agentName ++ " processed: " ++ msg.take 100) []).2
        (app, user, sid)).map Session.messages = _
    rw [h3]
    simp
